import Mathlib

/-!
Verification of the GPIO flex glitch filter driver
(components/driver/gpio/gpio_flex_glitch_filter.c).

The driver manages a fixed pool of hardware glitch-filter slots.  We embed
its state and operations shallowly:

* the slot table `filters[SOC_GPIO_FLEX_GLITCH_FILTER_NUM]` becomes a
  `List (Option Nat)` (a slot holds `none` or the handle of the filter
  instance occupying it); the table length plays the role of the
  hardware-defined slot count, which the theorems quantify over;
* a filter instance (`gpio_flex_glitch_filter_t`) is identified by an
  abstract handle (`Nat`, standing for its heap address) together with the
  fields the driver reads and writes: `filter_id`, the FSM state of the
  embedded base struct, and whether `group` has been recorded;
* hardware register writes (`gpio_ll_glitch_filter_enable`,
  `gpio_ll_glitch_filter_set_gpio`, `gpio_ll_glitch_filter_set_window_coeff`)
  are recorded as a trace of `HwCmd` values;
* external collaborators are parameters: the xtal clock frequency in Hz,
  the `GPIO_LL_GLITCH_FILTER_MAX_WINDOW` constant, the platform predicate
  `GPIO_IS_VALID_GPIO`, and whether `heap_caps_calloc` succeeds;
* C `uint32_t` arithmetic is `Nat` arithmetic with an explicit `% 2 ^ 32`
  where the product can wrap.
-/

namespace GpioFlexGlitchFilter

/-- Lifecycle states of the base filter FSM: `GLITCH_FILTER_FSM_INIT` and
`GLITCH_FILTER_FSM_ENABLE`. -/
inductive GlitchFilterFSM where
  | fsmInit
  | fsmEnable
deriving DecidableEq, Repr

/-- Error codes returned by the driver (`esp_err_t` values it uses). -/
inductive EspErr where
  | espOk
  | espErrInvalidArg
  | espErrInvalidState
  | espErrNotFound
  | espErrNoMem
deriving DecidableEq, Repr

/-- Hardware register commands issued through the `gpio_ll_glitch_filter_*`
low-level interface, recorded as an observable trace. -/
inductive HwCmd where
  | enableUnit (filter_id : Nat) (turnOn : Bool)
  | setGpio (filter_id : Nat) (gpio_num : Nat)
  | setWindowCoeff (filter_id : Nat) (width_ticks thres_ticks : Nat)
deriving DecidableEq, Repr

/-- Caller-supplied configuration record
(`gpio_flex_glitch_filter_config_t`). -/
structure FlexGlitchFilterConfig where
  gpio_num : Nat
  window_width_ns : Nat
  window_thres_ns : Nat
deriving DecidableEq, Repr

/-- Modulus of C `uint32_t` arithmetic. -/
def UINT32_MOD : Nat := 2 ^ 32

/-- The tick computation `clk_freq_mhz * ns / 1000` as the code performs it:
a `uint32_t` product (which wraps modulo `2 ^ 32`) followed by truncating
division. -/
def computeTicks (clk_mhz ns : Nat) : Nat :=
  clk_mhz * ns % UINT32_MOD / 1000

/-- The scan loop inside `gpio_filter_register_to_group`: walk the slot
table in increasing index order, claim the first `none` entry for handle
`f`, and return the claimed index (or `none` when every slot is occupied)
together with the updated table. -/
def registerScan (f : Nat) : List (Option Nat) → Option Nat × List (Option Nat)
  | [] => (none, [])
  | none :: rest => (some 0, some f :: rest)
  | some g :: rest =>
    let r := registerScan f rest
    (r.1.map (fun j => j + 1), some g :: r.2)

/-- `gpio_filter_register_to_group`: under the group spinlock, scan for a
free slot and claim it; `ESP_ERR_NOT_FOUND` when the table is full.  On
success the returned index is stored into `filter->filter_id` and the group
back-reference is recorded. -/
def gpio_filter_register_to_group (table : List (Option Nat)) (f : Nat) :
    EspErr × Option Nat × List (Option Nat) :=
  match registerScan f table with
  | (none, t) => (EspErr.espErrNotFound, none, t)
  | (some j, t) => (EspErr.espOk, some j, t)

/-- `gpio_filter_destroy`: if the instance has a recorded group
back-reference, clear its slot entry under the spinlock; then free the
instance memory and return `ESP_OK`.  The `Bool` result records that the
memory was freed. -/
def gpio_filter_destroy (hasGroup : Bool) (filter_id : Nat)
    (table : List (Option Nat)) : EspErr × List (Option Nat) × Bool :=
  (EspErr.espOk, (if hasGroup then table.set filter_id none else table), true)

/-- `gpio_flex_glitch_filter_del`: refuse unless the FSM is in
`GLITCH_FILTER_FSM_INIT`, otherwise destroy the instance.  Returns the error
code, the resulting slot table, and whether the instance memory was freed. -/
def gpio_flex_glitch_filter_del (fsm : GlitchFilterFSM) (hasGroup : Bool)
    (filter_id : Nat) (table : List (Option Nat)) :
    EspErr × List (Option Nat) × Bool :=
  if fsm = GlitchFilterFSM.fsmInit then
    gpio_filter_destroy hasGroup filter_id table
  else
    (EspErr.espErrInvalidState, table, false)

/-- `gpio_flex_glitch_filter_enable`: refuse unless the FSM is in
`GLITCH_FILTER_FSM_INIT`; on success issue the hardware enable command for
the instance's slot and move the FSM to `GLITCH_FILTER_FSM_ENABLE`.
Returns the error code, the resulting FSM state, and the trace of hardware
commands issued. -/
def gpio_flex_glitch_filter_enable (fsm : GlitchFilterFSM) (filter_id : Nat) :
    EspErr × GlitchFilterFSM × List HwCmd :=
  if fsm = GlitchFilterFSM.fsmInit then
    (EspErr.espOk, GlitchFilterFSM.fsmEnable, [HwCmd.enableUnit filter_id true])
  else
    (EspErr.espErrInvalidState, fsm, [])

/-- `gpio_flex_glitch_filter_disable`: refuse unless the FSM is in
`GLITCH_FILTER_FSM_ENABLE`; on success issue the hardware disable command
and move the FSM back to `GLITCH_FILTER_FSM_INIT`. -/
def gpio_flex_glitch_filter_disable (fsm : GlitchFilterFSM) (filter_id : Nat) :
    EspErr × GlitchFilterFSM × List HwCmd :=
  if fsm = GlitchFilterFSM.fsmEnable then
    (EspErr.espOk, GlitchFilterFSM.fsmInit, [HwCmd.enableUnit filter_id false])
  else
    (EspErr.espErrInvalidState, fsm, [])

/-- Result of `gpio_new_flex_glitch_filter`: the error code, the handle
written through `*ret_filter` (on success), the slot index and FSM state
recorded in the new instance, the trace of hardware commands issued, the
resulting slot table, and whether the instance memory is still allocated
when the call returns (`true` exactly when the caller receives a live
handle). -/
structure CreateResult where
  err : EspErr
  ret_filter : Option Nat
  filter_id : Option Nat
  fsm : Option GlitchFilterFSM
  trace : List HwCmd
  table : List (Option Nat)
  memRetained : Bool
deriving DecidableEq, Repr

/-- `gpio_new_flex_glitch_filter`.  Parameters standing for external
collaborators: `clk_freq_hz` is `esp_clk_xtal_freq()`, `max_window` is
`GPIO_LL_GLITCH_FILTER_MAX_WINDOW`, `validGpio` is `GPIO_IS_VALID_GPIO`,
`alloc_ok` is whether `heap_caps_calloc` succeeds, and `newHandle` is the
address the allocator would return.  `config` is `none` for a NULL config
pointer and `ret_filter_ok` is `false` for a NULL output pointer.  The body
mirrors the C control flow: argument checks, tick computation and window
validation, allocation, slot registration (whose failure frees the zeroed
instance, whose `group` field is still NULL), and the three hardware writes
(defensive disable, pin binding, window coefficients). -/
def gpio_new_flex_glitch_filter (clk_freq_hz max_window : Nat)
    (validGpio : Nat → Bool) (config : Option FlexGlitchFilterConfig)
    (ret_filter_ok alloc_ok : Bool) (newHandle : Nat)
    (table : List (Option Nat)) : CreateResult :=
  match config with
  | none => ⟨EspErr.espErrInvalidArg, none, none, none, [], table, false⟩
  | some cfg =>
    if ret_filter_ok = false then
      ⟨EspErr.espErrInvalidArg, none, none, none, [], table, false⟩
    else if validGpio cfg.gpio_num = false then
      ⟨EspErr.espErrInvalidArg, none, none, none, [], table, false⟩
    else
      let clk_freq_mhz := clk_freq_hz / 1000000
      let window_thres_ticks := computeTicks clk_freq_mhz cfg.window_thres_ns
      let window_width_ticks := computeTicks clk_freq_mhz cfg.window_width_ns
      if window_thres_ticks ≠ 0 ∧ window_thres_ticks ≤ window_width_ticks ∧
          window_width_ticks ≤ max_window then
        if alloc_ok = false then
          ⟨EspErr.espErrNoMem, none, none, none, [], table, false⟩
        else
          let reg := gpio_filter_register_to_group table newHandle
          match reg.2.1 with
          | none =>
            let d := gpio_filter_destroy false 0 reg.2.2
            ⟨reg.1, none, none, none, [], d.2.1, false⟩
          | some fid =>
            ⟨EspErr.espOk, some newHandle, some fid,
              some GlitchFilterFSM.fsmInit,
              [HwCmd.enableUnit fid false,
               HwCmd.setGpio fid cfg.gpio_num,
               HwCmd.setWindowCoeff fid window_width_ticks window_thres_ticks],
              reg.2.2, true⟩
      else
        ⟨EspErr.espErrInvalidArg, none, none, none, [], table, false⟩

/-- Number of occupied slots in a table. -/
def occupiedCount (table : List (Option Nat)) : Nat :=
  (table.filter Option.isSome).length

/-! Section: Lemmas about the registration scan -/

theorem registerScan_length (f : Nat) (t : List (Option Nat)) :
    (registerScan f t).2.length = t.length := by
  induction t with
  | nil => rfl
  | cons x rest ih =>
    cases x with
    | none => simp [registerScan]
    | some g => simp [registerScan, ih]

theorem registerScan_none (f : Nat) (t : List (Option Nat))
    (h : (registerScan f t).1 = none) :
    (registerScan f t).2 = t ∧ ∀ x ∈ t, x ≠ none := by
  induction t with
  | nil => exact ⟨rfl, by simp⟩
  | cons x rest ih =>
    cases x with
    | none => simp [registerScan] at h
    | some g =>
      simp only [registerScan, Option.map_eq_none'] at h
      obtain ⟨h1, h2⟩ := ih h
      constructor
      · simp only [registerScan, h, Option.map_none']
        exact congrArg (some g :: ·) h1
      · intro y hy
        rcases List.mem_cons.mp hy with hy | hy
        · simp [hy]
        · exact h2 y hy

theorem registerScan_some (f j : Nat) (t : List (Option Nat))
    (h : (registerScan f t).1 = some j) :
    j < t.length ∧ t[j]? = some none ∧
      (registerScan f t).2 = t.set j (some f) ∧
      ∀ k < j, ∃ g, t[k]? = some (some g) := by
  induction t generalizing j with
  | nil => simp [registerScan] at h
  | cons x rest ih =>
    cases x with
    | none =>
      simp only [registerScan] at h ⊢
      obtain rfl : (0 : Nat) = j := by simpa using h
      refine ⟨by simp, by simp, by simp [List.set], ?_⟩
      intro k hk
      omega
    | some g =>
      simp only [registerScan, Option.map_eq_some'] at h
      obtain ⟨j0, hj0, rfl⟩ := h
      obtain ⟨hlt, hget, hset, hmin⟩ := ih j0 hj0
      refine ⟨by simpa using hlt, by simpa using hget, ?_, ?_⟩
      · simp [registerScan, hj0, List.set, hset]
      · intro k hk
        cases k with
        | zero => exact ⟨g, by simp⟩
        | succ k0 =>
          have : k0 < j0 := by omega
          simpa using hmin k0 this

theorem registerScan_total (f : Nat) (t : List (Option Nat)) :
    (registerScan f t).1 = none ∨ ∃ j, (registerScan f t).1 = some j := by
  cases h : (registerScan f t).1 with
  | none => exact Or.inl rfl
  | some j => exact Or.inr ⟨j, rfl⟩

theorem register_to_group_eq (t : List (Option Nat)) (f : Nat) :
    gpio_filter_register_to_group t f =
      ((registerScan f t).1.elim EspErr.espErrNotFound fun _ => EspErr.espOk,
       (registerScan f t).1, (registerScan f t).2) := by
  unfold gpio_filter_register_to_group
  cases h : registerScan f t with
  | mk a b =>
    cases a with
    | none => simp [h]
    | some j => simp [h]

/-! Section: Lemmas about `gpio_new_flex_glitch_filter` -/

theorem create_fail_unchanged (clk maxW : Nat) (vg : Nat → Bool)
    (config : Option FlexGlitchFilterConfig) (rok aok : Bool) (hnd : Nat)
    (t : List (Option Nat)) (r : CreateResult)
    (hr : gpio_new_flex_glitch_filter clk maxW vg config rok aok hnd t = r)
    (he : r.err ≠ EspErr.espOk) :
    r.table = t ∧ r.trace = [] ∧ r.memRetained = false ∧ r.ret_filter = none := by
  cases config with
  | none =>
    rw [← hr]
    exact ⟨rfl, rfl, rfl, rfl⟩
  | some cfg =>
    simp only [gpio_new_flex_glitch_filter, register_to_group_eq] at hr
    split at hr
    · rw [← hr]; exact ⟨rfl, rfl, rfl, rfl⟩
    · split at hr
      · rw [← hr]; exact ⟨rfl, rfl, rfl, rfl⟩
      · split at hr
        · split at hr
          · rw [← hr]; exact ⟨rfl, rfl, rfl, rfl⟩
          · split at hr
            · rename_i hnone
              rw [← hr]
              refine ⟨?_, rfl, rfl, rfl⟩
              simp only [gpio_filter_destroy]
              exact (registerScan_none hnd t hnone).1
            · rw [← hr] at he
              exact absurd rfl he
        · rw [← hr]; exact ⟨rfl, rfl, rfl, rfl⟩

theorem create_ok_spec (clk maxW : Nat) (vg : Nat → Bool)
    (cfg : FlexGlitchFilterConfig) (rok aok : Bool) (hnd : Nat)
    (t : List (Option Nat)) (r : CreateResult)
    (hr : gpio_new_flex_glitch_filter clk maxW vg (some cfg) rok aok hnd t = r)
    (he : r.err = EspErr.espOk) :
    ∃ j, (registerScan hnd t).1 = some j ∧
      r.ret_filter = some hnd ∧ r.filter_id = some j ∧
      r.fsm = some GlitchFilterFSM.fsmInit ∧
      r.table = (registerScan hnd t).2 ∧ r.memRetained = true ∧
      r.trace =
        [HwCmd.enableUnit j false, HwCmd.setGpio j cfg.gpio_num,
         HwCmd.setWindowCoeff j
           (computeTicks (clk / 1000000) cfg.window_width_ns)
           (computeTicks (clk / 1000000) cfg.window_thres_ns)] := by
  simp only [gpio_new_flex_glitch_filter, register_to_group_eq] at hr
  split at hr
  · rw [← hr] at he; cases he
  · split at hr
    · rw [← hr] at he; cases he
    · split at hr
      · split at hr
        · rw [← hr] at he; cases he
        · split at hr
          · rename_i hnone
            rw [← hr] at he
            simp [hnone] at he
          · rename_i j hsome
            exact ⟨j, hsome, by rw [← hr], by rw [← hr], by rw [← hr],
              by rw [← hr], by rw [← hr], by rw [← hr]⟩
      · rw [← hr] at he; cases he

/-! Section: Claim C1: window validation decides the invalid-argument failure -/

/-- C1: for a non-NULL config and output pointer whose GPIO number passes
`GPIO_IS_VALID_GPIO`, `gpio_new_flex_glitch_filter` returns
`ESP_ERR_INVALID_ARG` if and only if the computed `window_thres_ticks` is
zero, or `window_thres_ticks` exceeds `window_width_ticks`, or
`window_width_ticks` exceeds the hardware maximum window constant; for
tick values within these bounds the window validation passes. -/
theorem create_invalid_arg_iff_window_violation
    (clk maxW : Nat) (vg : Nat → Bool) (cfg : FlexGlitchFilterConfig)
    (aok : Bool) (hnd : Nat) (t : List (Option Nat))
    (hvg : vg cfg.gpio_num = true) :
    (gpio_new_flex_glitch_filter clk maxW vg (some cfg) true aok hnd t).err =
        EspErr.espErrInvalidArg ↔
      (computeTicks (clk / 1000000) cfg.window_thres_ns = 0 ∨
       computeTicks (clk / 1000000) cfg.window_width_ns <
         computeTicks (clk / 1000000) cfg.window_thres_ns ∨
       maxW < computeTicks (clk / 1000000) cfg.window_width_ns) := by
  simp only [gpio_new_flex_glitch_filter, register_to_group_eq]
  rw [if_neg (by simp), if_neg (by simp [hvg])]
  by_cases hw : computeTicks (clk / 1000000) cfg.window_thres_ns ≠ 0 ∧
      computeTicks (clk / 1000000) cfg.window_thres_ns ≤
        computeTicks (clk / 1000000) cfg.window_width_ns ∧
      computeTicks (clk / 1000000) cfg.window_width_ns ≤ maxW
  · rw [if_pos hw]
    have hno : ¬(computeTicks (clk / 1000000) cfg.window_thres_ns = 0 ∨
        computeTicks (clk / 1000000) cfg.window_width_ns <
          computeTicks (clk / 1000000) cfg.window_thres_ns ∨
        maxW < computeTicks (clk / 1000000) cfg.window_width_ns) := by omega
    cases aok with
    | false => exact iff_of_false (by simp) hno
    | true =>
      rw [if_neg (by simp)]
      cases hscan : (registerScan hnd t).1 with
      | none => exact iff_of_false (by simp [hscan]) hno
      | some j => exact iff_of_false (by simp [hscan]) hno
  · rw [if_neg hw]
    exact iff_of_true rfl (by omega)

/-- Witness for C1 at a concrete in-bounds configuration (40 MHz clock,
500 ns threshold, 1000 ns width, maximum window 63): validation passes. -/
theorem create_invalid_arg_iff_window_violation_witness :
    ((fun _ => true) : Nat → Bool) 0 = true ∧
    ¬((gpio_new_flex_glitch_filter 40000000 63 (fun _ => true)
        (some ⟨0, 1000, 500⟩) true true 7 [none, none]).err =
      EspErr.espErrInvalidArg) := by
  refine ⟨rfl, ?_⟩
  rw [create_invalid_arg_iff_window_violation 40000000 63 (fun _ => true)
    ⟨0, 1000, 500⟩ true 7 [none, none] rfl]
  decide

/-! Section: Claim C2: the tick computation and 32-bit overflow -/

/-- C2 counterexample: at a 40 MHz clock, `window_thres_ns = 107374183`
makes the 32-bit product `clk_mhz * ns` wrap modulo `2 ^ 32`, so the code
computes 0 ticks while the mathematical value of the formula is 4294967;
consequently create rejects (invalid argument) a configuration whose
mathematical tick values lie strictly inside a maximum window of 5000000. -/
theorem create_tick_overflow_cex :
    computeTicks 40 107374183 = 0 ∧
    40 * 107374183 / 1000 = 4294967 ∧
    computeTicks 40 107374183 ≠ 40 * 107374183 / 1000 ∧
    (gpio_new_flex_glitch_filter 40000000 5000000 (fun _ => true)
        (some ⟨0, 107374184, 107374183⟩) true true 7 [none]).err =
      EspErr.espErrInvalidArg := by
  exact ⟨by decide, by decide, by decide, by decide⟩

/-- C2 amended: the 32-bit tick computation equals the exact mathematical
value `clk_mhz * ns / 1000` whenever the product `clk_mhz * ns` does not
overflow 32 bits; truncating division itself loses no further precision
relative to the reference formula. -/
theorem computeTicks_exact_without_overflow (clk_mhz ns : Nat)
    (h : clk_mhz * ns < UINT32_MOD) :
    computeTicks clk_mhz ns = clk_mhz * ns / 1000 := by
  unfold computeTicks
  rw [Nat.mod_eq_of_lt h]

/-- Witness for the amended C2 at 40 MHz and 12500 ns. -/
theorem computeTicks_exact_without_overflow_witness :
    40 * 12500 < UINT32_MOD ∧ computeTicks 40 12500 = 40 * 12500 / 1000 :=
  ⟨by decide, computeTicks_exact_without_overflow 40 12500 (by decide)⟩

/-! Section: Claim C3: lowest-free-slot acquisition -/

/-- C3: acquiring a slot returns the lowest index whose entry is empty and
marks it occupied by the supplied instance; it fails with
`ESP_ERR_NOT_FOUND` exactly when every slot is occupied (leaving the table
unchanged, no blocking or queuing); and after occupying slots 0, 1, 2 and
destroying the instance in slot 1, the next create receives slot index 1. -/
theorem register_lowest_free_slot (t : List (Option Nat)) (f j : Nat) :
    ((∀ x ∈ t, x ≠ none) →
      gpio_filter_register_to_group t f = (EspErr.espErrNotFound, none, t)) ∧
    ((gpio_filter_register_to_group t f).1 = EspErr.espErrNotFound →
      ∀ x ∈ t, x ≠ none) ∧
    (t[j]? = some none → (∀ k < j, t[k]? ≠ some none) →
      gpio_filter_register_to_group t f =
        (EspErr.espOk, some j, t.set j (some f))) ∧
    (gpio_new_flex_glitch_filter 40000000 63 (fun _ => true)
        (some ⟨0, 1000, 500⟩) true true 13
        (gpio_filter_destroy true 1 [some 10, some 11, some 12]).2.1).filter_id
      = some 1 := by
  refine ⟨?_, ?_, ?_, by decide⟩
  · intro hfull
    cases hscan : (registerScan f t).1 with
    | none =>
      simp [register_to_group_eq, hscan, (registerScan_none f t hscan).1]
    | some j0 =>
      obtain ⟨_, hget, _, _⟩ := registerScan_some f j0 t hscan
      exact absurd rfl (hfull none (List.getElem?_mem hget))
  · intro herr
    cases hscan : (registerScan f t).1 with
    | none => exact (registerScan_none f t hscan).2
    | some j0 => simp [register_to_group_eq, hscan] at herr
  · intro hfree hmin
    cases hscan : (registerScan f t).1 with
    | none =>
      exact absurd hfree ((registerScan_none f t hscan).2 none
        (List.getElem?_mem hfree) |> fun hne => by simp at hne)
    | some j0 =>
      obtain ⟨hlt0, hget0, hset0, hmin0⟩ := registerScan_some f j0 t hscan
      have hjj : j = j0 := by
        rcases Nat.lt_trichotomy j j0 with hc | hc | hc
        · obtain ⟨g, hg⟩ := hmin0 j hc
          rw [hfree] at hg
          cases hg
        · exact hc
        · exact absurd hget0 (hmin j0 hc)
      subst hjj
      simp [register_to_group_eq, hscan, hset0]

/-- Witness for C3: in table `[occupied, free, free]` the acquisition
claims slot 1 and the full-table case returns not-found. -/
theorem register_lowest_free_slot_witness :
    gpio_filter_register_to_group [some 5, none, none] 9 =
      (EspErr.espOk, some 1, [some 5, some 9, none]) ∧
    gpio_filter_register_to_group [some 5, some 6] 9 =
      (EspErr.espErrNotFound, none, [some 5, some 6]) := by
  constructor
  · have h := (register_lowest_free_slot [some 5, none, none] 9 1).2.2.1
      (by decide) (by decide)
    simpa using h
  · exact (register_lowest_free_slot [some 5, some 6] 9 0).1 (by decide)

/-! Section: Claim C4: lifecycle state-machine guards -/

/-- C4: enable fails with invalid-state unless the FSM is `INIT`, disable
fails unless it is `ENABLE`, destroy fails unless it is `INIT`; each failure
leaves the state, table and allocation unchanged, while on success enable
moves `INIT → ENABLE`, disable moves `ENABLE → INIT`, and destroy clears
the instance's slot and frees its memory. -/
theorem lifecycle_state_guards (fsm : GlitchFilterFSM) (fid : Nat)
    (hasGroup : Bool) (t : List (Option Nat)) :
    ((gpio_flex_glitch_filter_enable fsm fid).1 = EspErr.espErrInvalidState ↔
      fsm ≠ GlitchFilterFSM.fsmInit) ∧
    (fsm ≠ GlitchFilterFSM.fsmInit →
      gpio_flex_glitch_filter_enable fsm fid =
        (EspErr.espErrInvalidState, fsm, [])) ∧
    (fsm = GlitchFilterFSM.fsmInit →
      gpio_flex_glitch_filter_enable fsm fid =
        (EspErr.espOk, GlitchFilterFSM.fsmEnable, [HwCmd.enableUnit fid true])) ∧
    ((gpio_flex_glitch_filter_disable fsm fid).1 = EspErr.espErrInvalidState ↔
      fsm ≠ GlitchFilterFSM.fsmEnable) ∧
    (fsm ≠ GlitchFilterFSM.fsmEnable →
      gpio_flex_glitch_filter_disable fsm fid =
        (EspErr.espErrInvalidState, fsm, [])) ∧
    (fsm = GlitchFilterFSM.fsmEnable →
      gpio_flex_glitch_filter_disable fsm fid =
        (EspErr.espOk, GlitchFilterFSM.fsmInit, [HwCmd.enableUnit fid false])) ∧
    ((gpio_flex_glitch_filter_del fsm hasGroup fid t).1 =
        EspErr.espErrInvalidState ↔ fsm ≠ GlitchFilterFSM.fsmInit) ∧
    (fsm ≠ GlitchFilterFSM.fsmInit →
      gpio_flex_glitch_filter_del fsm hasGroup fid t =
        (EspErr.espErrInvalidState, t, false)) ∧
    (fsm = GlitchFilterFSM.fsmInit →
      gpio_flex_glitch_filter_del fsm hasGroup fid t =
        (EspErr.espOk, (if hasGroup then t.set fid none else t), true)) := by
  cases fsm <;>
    simp [gpio_flex_glitch_filter_enable, gpio_flex_glitch_filter_disable,
      gpio_flex_glitch_filter_del, gpio_filter_destroy]

/-- Witness for C4: an enabled filter refuses enable, an initial filter
enables, and an initial filter with a group destroys its slot entry. -/
theorem lifecycle_state_guards_witness :
    gpio_flex_glitch_filter_enable GlitchFilterFSM.fsmEnable 0 =
      (EspErr.espErrInvalidState, GlitchFilterFSM.fsmEnable, []) ∧
    gpio_flex_glitch_filter_enable GlitchFilterFSM.fsmInit 0 =
      (EspErr.espOk, GlitchFilterFSM.fsmEnable, [HwCmd.enableUnit 0 true]) ∧
    gpio_flex_glitch_filter_del GlitchFilterFSM.fsmInit true 1
        [some 3, some 4] = (EspErr.espOk, [some 3, none], true) := by
  refine ⟨(lifecycle_state_guards GlitchFilterFSM.fsmEnable 0 true []).2.1
      (by decide),
    (lifecycle_state_guards GlitchFilterFSM.fsmInit 0 true []).2.2.1 rfl, ?_⟩
  have h := (lifecycle_state_guards GlitchFilterFSM.fsmInit 1 true
    [some 3, some 4]).2.2.2.2.2.2.2.2 rfl
  simpa using h

/-! Section: Claim C5: create failures leak no slot and no memory -/

/-- C5: every failing create call leaves the occupied-slot count of the
table unchanged (indeed the table itself unchanged) and retains no
instance memory. -/
theorem create_failure_no_leak (clk maxW : Nat) (vg : Nat → Bool)
    (config : Option FlexGlitchFilterConfig) (rok aok : Bool) (hnd : Nat)
    (t : List (Option Nat))
    (he : (gpio_new_flex_glitch_filter clk maxW vg config rok aok hnd t).err ≠
      EspErr.espOk) :
    occupiedCount
        (gpio_new_flex_glitch_filter clk maxW vg config rok aok hnd t).table =
      occupiedCount t ∧
    (gpio_new_flex_glitch_filter clk maxW vg config rok aok hnd t).table = t ∧
    (gpio_new_flex_glitch_filter clk maxW vg config rok aok hnd t).memRetained =
      false := by
  obtain ⟨h1, h2, h3, h4⟩ :=
    create_fail_unchanged clk maxW vg config rok aok hnd t _ rfl he
  exact ⟨by rw [h1], h1, h3⟩

/-- Witness for C5 on a slot-exhausted create call against a full table. -/
theorem create_failure_no_leak_witness :
    (gpio_new_flex_glitch_filter 40000000 63 (fun _ => true)
        (some ⟨0, 1000, 500⟩) true true 7 [some 1]).err ≠ EspErr.espOk ∧
    occupiedCount
        (gpio_new_flex_glitch_filter 40000000 63 (fun _ => true)
          (some ⟨0, 1000, 500⟩) true true 7 [some 1]).table =
      occupiedCount [some 1] :=
  ⟨by decide,
   (create_failure_no_leak 40000000 63 (fun _ => true) (some ⟨0, 1000, 500⟩)
     true true 7 [some 1] (by decide)).1⟩

/-! Section: Claim C7: serialized acquisitions return distinct slots -/

/-- C7: the scan-and-mark of the table is atomic under the group spinlock,
so two create calls — in whichever order the lock serializes them — never
receive the same slot index: the second acquisition starts from the table
in which the first already marked its slot occupied. -/
theorem register_concurrent_distinct_slots (t : List (Option Nat))
    (f1 f2 j1 j2 : Nat)
    (h1 : (gpio_filter_register_to_group t f1).2.1 = some j1)
    (h2 : (gpio_filter_register_to_group
        (gpio_filter_register_to_group t f1).2.2 f2).2.1 = some j2) :
    j1 ≠ j2 := by
  simp only [register_to_group_eq] at h1 h2
  obtain ⟨hlt1, hget1, hset1, _⟩ := registerScan_some f1 j1 t h1
  obtain ⟨hlt2, hget2, _, _⟩ := registerScan_some f2 j2 _ h2
  intro hEq
  rw [← hEq, hset1, List.getElem?_set] at hget2
  simp [hlt1] at hget2

/-- Witness for C7: with both slots of a two-slot table free, serialized
acquisitions receive slots 0 and 1. -/
theorem register_concurrent_distinct_slots_witness : (0 : Nat) ≠ 1 :=
  register_concurrent_distinct_slots [none, none] 1 2 0 1 (by decide)
    (by decide)

/-! Section: Claim C8: slot release semantics of destroy -/

/-- C8: destroying an instance with a recorded group association marks its
recorded slot entry empty unconditionally (regardless of the entry's
current content) and leaves every other entry alone; with no recorded
group association the table is untouched; in both cases the memory is
freed and `ESP_OK` is returned. -/
theorem destroy_releases_slot (hasGroup : Bool) (fid : Nat)
    (t : List (Option Nat)) :
    (gpio_filter_destroy hasGroup fid t).1 = EspErr.espOk ∧
    (gpio_filter_destroy hasGroup fid t).2.2 = true ∧
    (hasGroup = false → (gpio_filter_destroy hasGroup fid t).2.1 = t) ∧
    (hasGroup = true → fid < t.length →
      (gpio_filter_destroy hasGroup fid t).2.1[fid]? = some none) ∧
    (hasGroup = true → ∀ k, k ≠ fid →
      (gpio_filter_destroy hasGroup fid t).2.1[k]? = t[k]?) := by
  refine ⟨rfl, rfl, ?_, ?_, ?_⟩
  · intro h
    simp [gpio_filter_destroy, h]
  · intro h hlt
    simp [gpio_filter_destroy, h, List.getElem?_set, hlt]
  · intro h k hk
    simp [gpio_filter_destroy, h, List.getElem?_set, Ne.symm hk]

/-- Witness for C8 on a three-slot table: destroying slot 1's instance
clears exactly entry 1, and a group-less destroy is a table no-op. -/
theorem destroy_releases_slot_witness :
    (gpio_filter_destroy true 1 [some 10, some 11, some 12]).2.1[1]? =
      some none ∧
    (gpio_filter_destroy false 1 [some 10, some 11, some 12]).2.1 =
      [some 10, some 11, some 12] :=
  ⟨(destroy_releases_slot true 1 [some 10, some 11, some 12]).2.2.2.1 rfl
     (by decide),
   (destroy_releases_slot false 1 [some 10, some 11, some 12]).2.2.1 rfl⟩

/-! Section: Claim C10: NULL-pointer guard in create -/

/-- C10: a NULL config pointer or a NULL output-handle pointer makes
create return `ESP_ERR_INVALID_ARG` immediately: no hardware command is
issued, the slot table is untouched, no slot index is assigned and no
allocation is retained. -/
theorem create_null_pointer_guard (clk maxW : Nat) (vg : Nat → Bool)
    (config : Option FlexGlitchFilterConfig) (rok aok : Bool) (hnd : Nat)
    (t : List (Option Nat)) (h : config = none ∨ rok = false) :
    gpio_new_flex_glitch_filter clk maxW vg config rok aok hnd t =
      ⟨EspErr.espErrInvalidArg, none, none, none, [], t, false⟩ := by
  rcases h with h | h
  · subst h
    rfl
  · subst h
    cases config with
    | none => rfl
    | some cfg => simp [gpio_new_flex_glitch_filter]

/-- Witness for C10 with a NULL config pointer. -/
theorem create_null_pointer_guard_witness :
    gpio_new_flex_glitch_filter 40000000 63 (fun _ => true) none true true 7
        [none] =
      ⟨EspErr.espErrInvalidArg, none, none, none, [], [none], false⟩ :=
  create_null_pointer_guard 40000000 63 (fun _ => true) none true true 7
    [none] (Or.inl rfl)

/-! Section: Claim C6: hardware command order of create → enable → disable -/

/-- C6 counterexample: in a concrete successful create → enable → disable
run the defensive disable is the first command issued, before pin binding
and coefficient setup, so the net command sequence is not
bind, set-coefficients, disable, enable, disable in that order. -/
theorem create_enable_disable_order_cex :
    ((gpio_new_flex_glitch_filter 40000000 63 (fun _ => true)
        (some ⟨5, 1000, 500⟩) true true 7 [none, none]).trace ++
      (gpio_flex_glitch_filter_enable GlitchFilterFSM.fsmInit 0).2.2 ++
      (gpio_flex_glitch_filter_disable GlitchFilterFSM.fsmEnable 0).2.2 =
      [HwCmd.enableUnit 0 false, HwCmd.setGpio 0 5,
       HwCmd.setWindowCoeff 0 40 20, HwCmd.enableUnit 0 true,
       HwCmd.enableUnit 0 false]) ∧
    ((gpio_new_flex_glitch_filter 40000000 63 (fun _ => true)
        (some ⟨5, 1000, 500⟩) true true 7 [none, none]).trace ++
      (gpio_flex_glitch_filter_enable GlitchFilterFSM.fsmInit 0).2.2 ++
      (gpio_flex_glitch_filter_disable GlitchFilterFSM.fsmEnable 0).2.2 ≠
      [HwCmd.setGpio 0 5, HwCmd.setWindowCoeff 0 40 20,
       HwCmd.enableUnit 0 false, HwCmd.enableUnit 0 true,
       HwCmd.enableUnit 0 false]) :=
  ⟨by decide, by decide⟩

/-- C6 amended: after a successful create followed by enable and then
disable, the final state is `GLITCH_FILTER_FSM_INIT` and the net hardware
command sequence for the instance's slot is defensive disable, bind to
pin, set window coefficients, enable, disable — in that order. -/
theorem create_enable_disable_trace (clk maxW : Nat) (vg : Nat → Bool)
    (cfg : FlexGlitchFilterConfig) (rok aok : Bool) (hnd j : Nat)
    (t : List (Option Nat)) (r : CreateResult)
    (hr : gpio_new_flex_glitch_filter clk maxW vg (some cfg) rok aok hnd t = r)
    (he : r.err = EspErr.espOk) (hj : r.filter_id = some j) :
    r.fsm = some GlitchFilterFSM.fsmInit ∧
    (gpio_flex_glitch_filter_enable GlitchFilterFSM.fsmInit j).1 =
      EspErr.espOk ∧
    (gpio_flex_glitch_filter_disable
        (gpio_flex_glitch_filter_enable GlitchFilterFSM.fsmInit j).2.1 j).1 =
      EspErr.espOk ∧
    (gpio_flex_glitch_filter_disable
        (gpio_flex_glitch_filter_enable GlitchFilterFSM.fsmInit j).2.1 j).2.1 =
      GlitchFilterFSM.fsmInit ∧
    r.trace ++
        (gpio_flex_glitch_filter_enable GlitchFilterFSM.fsmInit j).2.2 ++
        (gpio_flex_glitch_filter_disable
          (gpio_flex_glitch_filter_enable GlitchFilterFSM.fsmInit j).2.1
          j).2.2 =
      [HwCmd.enableUnit j false, HwCmd.setGpio j cfg.gpio_num,
       HwCmd.setWindowCoeff j
         (computeTicks (clk / 1000000) cfg.window_width_ns)
         (computeTicks (clk / 1000000) cfg.window_thres_ns),
       HwCmd.enableUnit j true, HwCmd.enableUnit j false] := by
  obtain ⟨j0, hscan, hret, hfid, hfsm, htab, hmem, htr⟩ :=
    create_ok_spec clk maxW vg cfg rok aok hnd t r hr he
  have hjj : j0 = j := by
    rw [hfid] at hj
    exact Option.some.inj hj
  subst hjj
  refine ⟨hfsm, rfl, rfl, rfl, ?_⟩
  rw [htr]
  rfl

/-! Section: System model for the lifecycle invariant (C9) -/

/-- The per-instance fields the registry reads and writes: the recorded
slot index and the FSM state of the embedded base struct.  Live instances
always carry a recorded group association (create only returns instances
it registered successfully). -/
structure FilterRec where
  filter_id : Nat
  fsm : GlitchFilterFSM
deriving DecidableEq, Repr

/-- Whole-driver state: the group's slot table together with the live
instances, an association list keyed by handle (heap address). -/
structure SysState where
  table : List (Option Nat)
  filters : List (Nat × FilterRec)
deriving DecidableEq, Repr

/-- The statically initialized group: `n` empty slots, no instances. -/
def initialState (n : Nat) : SysState :=
  ⟨List.replicate n none, []⟩

/-- Record a new FSM state for the instance with handle `h`. -/
def setFsm (h : Nat) (fsm : GlitchFilterFSM) (l : List (Nat × FilterRec)) :
    List (Nat × FilterRec) :=
  l.map fun p => if p.1 = h then (p.1, ⟨p.2.filter_id, fsm⟩) else p

/-- Drop the instance with handle `h` (its memory is freed). -/
def removeFilter (h : Nat) (l : List (Nat × FilterRec)) :
    List (Nat × FilterRec) :=
  l.filter fun p => p.1 ≠ h

/-- One driver operation, as observable by the registry: a create call
with arbitrary arguments and a fresh handle, or an enable, disable or
destroy call on a live instance.  Each operation's effect on the table and
the instance set is exactly the corresponding function's result. -/
inductive SysStep (clk maxW : Nat) (vg : Nat → Bool) : SysState → SysState → Prop where
  | createStep (s : SysState) (config : Option FlexGlitchFilterConfig)
      (rok aok : Bool) (h0 : Nat) (r : CreateResult)
      (hfresh : ∀ fr, (h0, fr) ∉ s.filters)
      (hr : gpio_new_flex_glitch_filter clk maxW vg config rok aok h0 s.table = r) :
      SysStep clk maxW vg s
        ⟨r.table,
         if r.err = EspErr.espOk then
           (h0, ⟨r.filter_id.getD 0, GlitchFilterFSM.fsmInit⟩) :: s.filters
         else s.filters⟩
  | enableStep (s : SysState) (h0 : Nat) (fr : FilterRec)
      (hmem : (h0, fr) ∈ s.filters) :
      SysStep clk maxW vg s
        ⟨s.table,
         setFsm h0 (gpio_flex_glitch_filter_enable fr.fsm fr.filter_id).2.1
           s.filters⟩
  | disableStep (s : SysState) (h0 : Nat) (fr : FilterRec)
      (hmem : (h0, fr) ∈ s.filters) :
      SysStep clk maxW vg s
        ⟨s.table,
         setFsm h0 (gpio_flex_glitch_filter_disable fr.fsm fr.filter_id).2.1
           s.filters⟩
  | delStep (s : SysState) (h0 : Nat) (fr : FilterRec)
      (hmem : (h0, fr) ∈ s.filters) :
      SysStep clk maxW vg s
        ⟨(gpio_flex_glitch_filter_del fr.fsm true fr.filter_id s.table).2.1,
         if (gpio_flex_glitch_filter_del fr.fsm true fr.filter_id s.table).2.2
         then removeFilter h0 s.filters
         else s.filters⟩

/-- States reachable from the initial group state by any sequence of
create / enable / disable / destroy operations. -/
inductive SysReachable (n clk maxW : Nat) (vg : Nat → Bool) : SysState → Prop where
  | start : SysReachable n clk maxW vg (initialState n)
  | next (s t : SysState) (hs : SysReachable n clk maxW vg s)
      (hstep : SysStep clk maxW vg s t) : SysReachable n clk maxW vg t

/-- Registry invariant: the table has the hardware slot count; every live
instance records an in-range slot whose table entry points back to it;
every occupied table entry points to a live instance recording exactly
that index; and live handles are pairwise distinct. -/
def SysInv (n : Nat) (s : SysState) : Prop :=
  s.table.length = n ∧
  (∀ p ∈ s.filters, p.2.filter_id < n ∧
    s.table[p.2.filter_id]? = some (some p.1)) ∧
  (∀ j h, s.table[j]? = some (some h) →
    ∃ fr, (h, fr) ∈ s.filters ∧ fr.filter_id = j) ∧
  (s.filters.map Prod.fst).Nodup

theorem setFsm_map_fst (h : Nat) (fsm : GlitchFilterFSM)
    (l : List (Nat × FilterRec)) :
    (setFsm h fsm l).map Prod.fst = l.map Prod.fst := by
  unfold setFsm
  rw [List.map_map]
  congr 1
  funext p
  simp only [Function.comp_apply]
  split <;> rfl

theorem setFsm_mem (h : Nat) (fsm : GlitchFilterFSM)
    (l : List (Nat × FilterRec)) (p : Nat × FilterRec)
    (hp : p ∈ setFsm h fsm l) :
    ∃ q ∈ l, q.1 = p.1 ∧ q.2.filter_id = p.2.filter_id := by
  unfold setFsm at hp
  obtain ⟨q, hq, hqe⟩ := List.mem_map.mp hp
  refine ⟨q, hq, ?_⟩
  by_cases h1 : q.1 = h
  · rw [if_pos h1] at hqe
    subst hqe
    exact ⟨rfl, rfl⟩
  · rw [if_neg h1] at hqe
    subst hqe
    exact ⟨rfl, rfl⟩

theorem setFsm_mem_rev (h : Nat) (fsm : GlitchFilterFSM)
    (l : List (Nat × FilterRec)) (q : Nat × FilterRec) (hq : q ∈ l) :
    ∃ p ∈ setFsm h fsm l, p.1 = q.1 ∧ p.2.filter_id = q.2.filter_id := by
  unfold setFsm
  by_cases h1 : q.1 = h
  · exact ⟨(q.1, ⟨q.2.filter_id, fsm⟩),
      List.mem_map.mpr ⟨q, hq, by rw [if_pos h1]⟩, rfl, rfl⟩
  · exact ⟨q, List.mem_map.mpr ⟨q, hq, by rw [if_neg h1]⟩, rfl, rfl⟩

theorem assoc_nodup_unique (l : List (Nat × FilterRec))
    (hnodup : (l.map Prod.fst).Nodup) (h : Nat) (a b : FilterRec)
    (ha : (h, a) ∈ l) (hb : (h, b) ∈ l) : a = b := by
  induction l with
  | nil => cases ha
  | cons p rest ih =>
    rw [List.map_cons, List.nodup_cons] at hnodup
    obtain ⟨hp, hrest⟩ := hnodup
    rcases List.mem_cons.mp ha with ha1 | ha1 <;>
      rcases List.mem_cons.mp hb with hb1 | hb1
    · rw [← ha1] at hb1
      have := congrArg Prod.snd hb1
      simpa using this.symm
    · rw [← ha1] at hp
      exact absurd (List.mem_map_of_mem Prod.fst hb1) hp
    · rw [← hb1] at hp
      exact absurd (List.mem_map_of_mem Prod.fst ha1) hp
    · exact ih hrest ha1 hb1

theorem sysInv_initial (n : Nat) : SysInv n (initialState n) := by
  refine ⟨by simp [initialState], by simp [initialState], ?_,
    by simp [initialState]⟩
  intro j h hj
  simp only [initialState] at hj
  rcases Nat.lt_or_ge j n with hlt | hge
  · rw [List.getElem?_replicate_of_lt hlt] at hj
    simp at hj
  · rw [List.getElem?_len_le (by simpa using hge)] at hj
    cases hj

theorem sysInv_setFsm (n : Nat) (s : SysState) (h0 : Nat)
    (fsm : GlitchFilterFSM) (hinv : SysInv n s) :
    SysInv n ⟨s.table, setFsm h0 fsm s.filters⟩ := by
  obtain ⟨hlen, hfwd, hbwd, hnodup⟩ := hinv
  refine ⟨hlen, ?_, ?_, ?_⟩
  · intro p hp
    obtain ⟨q, hq, hq1, hq2⟩ := setFsm_mem h0 fsm s.filters p hp
    obtain ⟨hlt, hslot⟩ := hfwd q hq
    rw [hq1] at hslot
    rw [← hq2]
    exact ⟨hlt, hslot⟩
  · intro j h hj
    obtain ⟨fr, hfr, hfid⟩ := hbwd j h hj
    obtain ⟨p, hpmem, hp1, hp2⟩ := setFsm_mem_rev h0 fsm s.filters (h, fr) hfr
    have hp1' : p.1 = h := hp1
    have hp2' : p.2.filter_id = fr.filter_id := hp2
    refine ⟨p.2, ?_, by rw [hp2', hfid]⟩
    rwa [show (h, p.2) = p from by rw [← hp1']]
  · rw [setFsm_map_fst]
    exact hnodup

theorem sysInv_step (n clk maxW : Nat) (vg : Nat → Bool) (s t : SysState)
    (hinv : SysInv n s) (hstep : SysStep clk maxW vg s t) : SysInv n t := by
  obtain ⟨hlen, hfwd, hbwd, hnodup⟩ := hinv
  cases hstep with
  | createStep config rok aok h0 r hfresh hr =>
    by_cases herr : r.err = EspErr.espOk
    · rw [if_pos herr]
      cases config with
      | none =>
        rw [← hr] at herr
        cases herr
      | some cfg =>
        obtain ⟨j, hscan, hret, hfid, hfsm, htab, hmem, htr⟩ :=
          create_ok_spec clk maxW vg cfg rok aok h0 s.table r hr herr
        obtain ⟨hjlt, hjfree, hset, hmin⟩ := registerScan_some h0 j s.table hscan
        have hjn : j < n := hlen ▸ hjlt
        have htab' : r.table = s.table.set j (some h0) := by rw [htab, hset]
        have hgetD : r.filter_id.getD 0 = j := by rw [hfid]; rfl
        refine ⟨by rw [htab']; simpa using hlen, ?_, ?_, ?_⟩
        · intro p hp
          rcases List.mem_cons.mp hp with hp1 | hp1
          · subst hp1
            simp only [hgetD, htab']
            refine ⟨hjn, ?_⟩
            rw [List.getElem?_set]
            simp [hjlt]
          · obtain ⟨hplt, hpslot⟩ := hfwd p hp1
            have hne : p.2.filter_id ≠ j := by
              intro hEq
              rw [hEq, hjfree] at hpslot
              cases hpslot
            rw [htab', List.getElem?_set]
            simp only [Ne.symm hne, if_false]
            exact ⟨hplt, hpslot⟩
        · intro j' h hj'
          rw [htab', List.getElem?_set] at hj'
          by_cases hEq : j = j'
          · subst hEq
            rw [if_pos rfl] at hj'
            simp only [hjlt, if_true] at hj'
            obtain rfl : h0 = h := by simpa using hj'
            exact ⟨⟨r.filter_id.getD 0, GlitchFilterFSM.fsmInit⟩,
              List.mem_cons_self _ _, hgetD⟩
          · rw [if_neg hEq] at hj'
            obtain ⟨fr, hfr, hfid'⟩ := hbwd j' h hj'
            exact ⟨fr, List.mem_cons_of_mem _ hfr, hfid'⟩
        · rw [List.map_cons]
          refine List.nodup_cons.mpr ⟨?_, hnodup⟩
          intro hcon
          obtain ⟨p, hpmem, hp1⟩ := List.mem_map.mp hcon
          have hp1' : p.1 = h0 := hp1
          exact hfresh p.2 (by rwa [show (h0, p.2) = p from by rw [← hp1']])
    · rw [if_neg herr]
      obtain ⟨htab, -, -, -⟩ :=
        create_fail_unchanged clk maxW vg config rok aok h0 s.table r hr herr
      rw [htab]
      exact ⟨hlen, hfwd, hbwd, hnodup⟩
  | enableStep h0 fr hmem =>
    exact sysInv_setFsm n s h0 _ ⟨hlen, hfwd, hbwd, hnodup⟩
  | disableStep h0 fr hmem =>
    exact sysInv_setFsm n s h0 _ ⟨hlen, hfwd, hbwd, hnodup⟩
  | delStep h0 fr hmem =>
    cases hfsm : fr.fsm with
    | fsmEnable =>
      simp only [gpio_flex_glitch_filter_del, hfsm]
      exact ⟨hlen, hfwd, hbwd, hnodup⟩
    | fsmInit =>
      simp only [gpio_flex_glitch_filter_del, hfsm, if_pos,
        gpio_filter_destroy]
      obtain ⟨hfrlt, hfrslot⟩ := hfwd (h0, fr) hmem
      refine ⟨by simpa using hlen, ?_, ?_, ?_⟩
      · intro p hp
        obtain ⟨hpmem, hpne⟩ := List.mem_filter.mp hp
        have hpne' : p.1 ≠ h0 := by simpa using hpne
        obtain ⟨hplt, hpslot⟩ := hfwd p hpmem
        have hne : p.2.filter_id ≠ fr.filter_id := by
          intro hEq
          rw [hEq, hfrslot] at hpslot
          exact hpne' (by simpa using hpslot.symm)
        rw [List.getElem?_set]
        simp only [Ne.symm hne, if_false]
        exact ⟨hplt, hpslot⟩
      · intro j h hj
        rw [List.getElem?_set] at hj
        by_cases hEq : fr.filter_id = j
        · rw [if_pos hEq] at hj
          simp only [hlen ▸ hfrlt, if_true] at hj
          cases hj
        · rw [if_neg hEq] at hj
          obtain ⟨fr', hfr', hfid'⟩ := hbwd j h hj
          have hne : h ≠ h0 := by
            intro hhe
            subst hhe
            have : fr' = fr := assoc_nodup_unique s.filters hnodup h fr' fr hfr' hmem
            rw [this] at hfid'
            exact hEq hfid'
          refine ⟨fr', List.mem_filter.mpr ⟨hfr', by simpa using hne⟩, hfid'⟩
      · exact hnodup.sublist (List.Sublist.map Prod.fst (List.filter_sublist _))

/-! Section: Claim C9: the registry invariant holds in every reachable state -/

/-- C9: in every state reachable by any sequence of create / enable /
disable / destroy operations, every live instance occupies exactly one
slot whose entry points back to it, its recorded `filter_id` is that
slot's index (in `0..n-1`), every occupied entry points to the unique live
instance recording it, and handles are pairwise distinct. -/
theorem reachable_registry_invariant (n clk maxW : Nat) (vg : Nat → Bool)
    (s : SysState) (hs : SysReachable n clk maxW vg s) :
    SysInv n s ∧
    (∀ (j k h : Nat), s.table[j]? = some (some h) →
      s.table[k]? = some (some h) → j = k) := by
  have hinv : SysInv n s := by
    induction hs with
    | start => exact sysInv_initial n
    | next s' t' hs' hstep ih => exact sysInv_step n clk maxW vg s' t' ih hstep
  refine ⟨hinv, ?_⟩
  obtain ⟨hlen, hfwd, hbwd, hnodup⟩ := hinv
  intro j k h hj hk
  obtain ⟨a, ha, haj⟩ := hbwd j h hj
  obtain ⟨b, hb, hbk⟩ := hbwd k h hk
  have hab : a = b := assoc_nodup_unique s.filters hnodup h a b ha hb
  rw [← haj, hab, hbk]

/-- Witness for C9 at the initial two-slot state. -/
theorem reachable_registry_invariant_witness : SysInv 2 (initialState 2) :=
  (reachable_registry_invariant 2 40000000 63 (fun _ => true)
    (initialState 2) SysReachable.start).1

/-- Witness for the amended C6 on a concrete run (slot 0, pin 5, 40 MHz,
1000 ns width, 500 ns threshold). -/
theorem create_enable_disable_trace_witness :
    (gpio_new_flex_glitch_filter 40000000 63 (fun _ => true)
        (some ⟨5, 1000, 500⟩) true true 7 [none, none]).trace ++
        (gpio_flex_glitch_filter_enable GlitchFilterFSM.fsmInit 0).2.2 ++
        (gpio_flex_glitch_filter_disable
          (gpio_flex_glitch_filter_enable GlitchFilterFSM.fsmInit 0).2.1
          0).2.2 =
      [HwCmd.enableUnit 0 false, HwCmd.setGpio 0 5,
       HwCmd.setWindowCoeff 0
         (computeTicks (40000000 / 1000000) 1000)
         (computeTicks (40000000 / 1000000) 500),
       HwCmd.enableUnit 0 true, HwCmd.enableUnit 0 false] :=
  (create_enable_disable_trace 40000000 63 (fun _ => true) ⟨5, 1000, 500⟩
    true true 7 0 [none, none] _ rfl (by decide) (by decide)).2.2.2.2

end GpioFlexGlitchFilter
